import Mathlib

/-!
Verification of the Workana video-transcription service.

Sources embedded here:
  - `workana_video_transcriber.py`: `formatear_tiempo`, `procesar_video_a_json`
    (the pipeline orchestrator).
  - `app.py`: `endpoint_procesar_video` (the HTTP endpoint).

Modelling choices:
  - Python floats (segment times) are modelled as rationals (`ℚ`); Python's
    `round(x, 3)` is modelled as exact round-half-to-even at 3 decimals.
  - The external world (audio extraction, the speech model, the filesystem,
    `os.remove`, output-file writing) is an oracle `Env` fixing the outcome of
    each side-effecting call of one run; the orchestrator is a pure function of
    that oracle and of an initial filesystem abstraction `FS`.
  - `open(path, 'w')` truncates the target file as soon as it succeeds; an
    `IOError` raised afterwards (during `json.dump`) therefore leaves a
    truncated file behind.  `WriteOutcome` distinguishes the two failure points.
-/

/-- Python `//` on nonneg-denominator exact arithmetic: `⌊a / b⌋`, phrased
executably on `ℚ` (`Rat.floor q = q.num / q.den`). -/
def ratFloor (q : ℚ) : ℤ := q.num / q.den

/-- Python `int(q)`: truncation toward zero (`tdiv` truncates). -/
def pyInt (q : ℚ) : ℤ := q.num.tdiv q.den

/-- Python `a // b` on numbers modelled as rationals (floor division). -/
def pyFloorDiv (a b : ℚ) : ℚ := (ratFloor (a / b) : ℚ)

/-- Python `a % b` on numbers modelled as rationals: `a - b * (a // b)`. -/
def pyMod (a b : ℚ) : ℚ := a - b * (ratFloor (a / b) : ℚ)

/-- Python `f"{n:02d}"`: decimal rendering left-padded with `0` to width 2. -/
def pad2 (n : ℤ) : String :=
  let s := toString n
  if s.length < 2 then "0" ++ s else s

/-- `formatear_tiempo` (workana_video_transcriber.py lines 16-20):
`minutos = int(segundos_totales // 60)`, `segundos = int(segundos_totales % 60)`,
rendered as `f"{minutos:02d}:{segundos:02d}"`. -/
def formatear_tiempo (segundos_totales : ℚ) : String :=
  let minutos : ℤ := pyInt (pyFloorDiv segundos_totales 60)
  let segundos : ℤ := pyInt (pyMod segundos_totales 60)
  pad2 minutos ++ ":" ++ pad2 segundos

/-- Round-half-to-even on an exact rational, to an integer (the tie-breaking
rule of Python 3 `round`). -/
def roundHalfEven (q : ℚ) : ℤ :=
  let f := ratFloor q
  let frac := q - (f : ℚ)
  if frac < 1/2 then f
  else if 1/2 < frac then f + 1
  else if f % 2 = 0 then f else f + 1

/-- Python `round(x, 3)` on times modelled as exact rationals. -/
def pyRound3 (q : ℚ) : ℚ := (roundHalfEven (q * 1000) : ℚ) / 1000

/-- A transcription segment as produced by the speech model: the fields
`segmento['start']`, `segmento['end']`, `segmento['text']` read by the
orchestrator (workana_video_transcriber.py lines 132-134).  Times are Python
floats, modelled as exact rationals. -/
structure Segment where
  start : ℚ
  «end» : ℚ
  text : String
  deriving Repr, DecidableEq

/-- One output record, the dict appended at workana_video_transcriber.py
lines 136-143. -/
structure Paragraph where
  id_parrafo : ℕ
  parrafo_texto : String
  tiempo_inicio_segundos : ℚ
  tiempo_fin_segundos : ℚ
  tiempo_inicio_formato_MMSS : String
  tiempo_fin_formato_MMSS : String
  deriving Repr, DecidableEq

/-- The JSON document passed to `json.dump`: either the list of paragraph
records (line 148) or the placeholder object with a `mensaje` and an empty
`parrafos` list (line 121). -/
inductive JsonDoc where
  | records (parrafos : List Paragraph)
  | mensaje (texto : String) (parrafos : List Paragraph)
  deriving Repr, DecidableEq

/-- The fixed placeholder document of workana_video_transcriber.py line 121. -/
def placeholderDoc : JsonDoc :=
  .mensaje "No se encontraron segmentos de voz en el audio." []

/-- State of the output file at `ruta_json_salida`.  `truncated` models the
observable state after `open(ruta, 'w')` succeeded (truncating the target)
but `json.dump` then raised `IOError`: some strict prefix of the document,
not the full document and not the previous content. -/
inductive FileState where
  | absent
  | written (doc : JsonDoc)
  | truncated
  deriving Repr, DecidableEq

/-- Filesystem abstraction for one run: the output file at `ruta_json_salida`
and whether the temporary audio file exists. -/
structure FS where
  output : FileState
  tempAudio : Bool
  deriving Repr, DecidableEq

/-- Where, if anywhere, the `with open(...) as f: json.dump(...)` block
raises `IOError`. -/
inductive WriteOutcome where
  | ok
  | openFail
  | dumpFail
  deriving Repr, DecidableEq

/-- Oracle fixing the outcome of every side-effecting call of one
orchestrator run: whether `extraer_audio_de_video` returns a path or `None`,
what `transcribir_audio_con_segmentos_local` returns (`none` models the
`None` failure signal), whether `os.remove` on the temp audio succeeds, and
where the output write fails if it does. -/
structure Env where
  extractionOk : Bool
  transcription : Option (List Segment)
  removeOk : Bool
  writeOutcome : WriteOutcome
  deriving Repr, DecidableEq

/-- `with open(ruta_json_salida, 'w') as f: json.dump(doc, f)` under a given
`WriteOutcome`; returns the filesystem and whether the block completed
without raising. -/
def writeJson (fs : FS) (doc : JsonDoc) (w : WriteOutcome) : FS × Bool :=
  match w with
  | .ok => ({ fs with output := .written doc }, true)
  | .openFail => (fs, false)
  | .dumpFail => ({ fs with output := .truncated }, false)

/-- The loop body of workana_video_transcriber.py lines 131-143 for index `i`
(0-based, as `enumerate` yields it).  Python `str.strip()` is modelled by
`String.trim` (both strip surrounding whitespace). -/
def segmentToParagraph (i : ℕ) (segmento : Segment) : Paragraph :=
  { id_parrafo := i + 1
    parrafo_texto := segmento.text.trim
    tiempo_inicio_segundos := pyRound3 segmento.start
    tiempo_fin_segundos := pyRound3 segmento.«end»
    tiempo_inicio_formato_MMSS := formatear_tiempo segmento.start
    tiempo_fin_formato_MMSS := formatear_tiempo segmento.«end» }

/-- `for i, segmento in enumerate(segmentos_transcritos)` accumulation,
started at index `i`. -/
def formatRecordsAux (i : ℕ) : List Segment → List Paragraph
  | [] => []
  | segmento :: rest => segmentToParagraph i segmento :: formatRecordsAux (i + 1) rest

/-- `datos_json_salida` as built by lines 130-143 from the segment list. -/
def formatRecords (segmentos : List Segment) : List Paragraph :=
  formatRecordsAux 0 segmentos

/-- `procesar_video_a_json` (workana_video_transcriber.py lines 81-153) as a
pure function of the oracle `env` and the initial filesystem `fs0`:
1. extraction failure aborts with `False` (line 100);
2. on extraction success the temp audio file exists, transcription runs, and
   removal of the temp file is attempted unconditionally (lines 106-111,
   `OSError` from `os.remove` only logs a warning);
3. transcription failure (`None`) aborts with `False` (lines 113-115);
4. an empty segment list writes the placeholder document, with any `IOError`
   caught and logged, and returns `True` (lines 117-125);
5. otherwise the records document is written, returning `True` on success and
   `False` on `IOError` (lines 146-153). -/
def procesar_video_a_json (env : Env) (fs0 : FS) : FS × Bool :=
  if env.extractionOk = false then
    (fs0, false)
  else
    let fs1 : FS := { fs0 with tempAudio := true }
    let fs2 : FS :=
      if fs1.tempAudio then
        if env.removeOk then { fs1 with tempAudio := false } else fs1
      else fs1
    match env.transcription with
    | none => (fs2, false)
    | some segmentos =>
      if segmentos.isEmpty then
        ((writeJson fs2 placeholderDoc env.writeOutcome).1, true)
      else
        writeJson fs2 (.records (formatRecords segmentos)) env.writeOutcome

/-- A parsed JSON value as `flask.request.get_json()` yields it (a Python
object: dict, list, str, number, bool or None). -/
inductive PyJson where
  | obj (fields : List (String × PyJson))
  | arr (elems : List PyJson)
  | str (s : String)
  | num (q : ℚ)
  | boolean (b : Bool)
  | null

/-- Whether the parsed body is a JSON object (a Python dict). -/
def PyJson.isObj : PyJson → Bool
  | .obj _ => true
  | _ => false

/-- Python truthiness of a parsed JSON value (`not x` at app.py line 45):
empty containers, the empty string, zero, `False` and `None` are falsy. -/
def pyTruthy : PyJson → Bool
  | .obj fields => !fields.isEmpty
  | .arr elems => !elems.isEmpty
  | .str s => !(s == "")
  | .num q => !(q == 0)
  | .boolean b => b
  | .null => false

/-- `data.get(key)` (app.py lines 42-43).  Only a dict has a `.get` method:
on any other value the attribute lookup raises `AttributeError`, modelled as
`.error`.  On a dict, a missing key yields Python `None`, modelled as
`none`. -/
def pyGet (data : PyJson) (key : String) : Except Unit (Option PyJson) :=
  match data with
  | .obj fields => .ok ((fields.find? (fun kv => kv.1 == key)).map (fun kv => kv.2))
  | _ => .error ()

/-- Truthiness of a `data.get` result (`None` is falsy). -/
def optTruthy : Option PyJson → Bool
  | none => false
  | some v => pyTruthy v

/-- What the handler produced: an HTTP response it returned itself, or an
exception that escaped the handler body (left to the framework, so the
handler's own `jsonify` error bodies are not produced). -/
inductive EndpointResponse where
  | http (status : ℕ)
  | uncaught
  deriving Repr, DecidableEq

/-- Observable outcome of one request: the response, whether
`procesar_video_a_json` was invoked, whether `os.makedirs` was called for
the output directory, and the final filesystem. -/
structure EndpointRun where
  response : EndpointResponse
  invokedOrchestrator : Bool
  createdOutputDir : Bool
  fs : FS
  deriving Repr, DecidableEq

/-- Oracle for the endpoint's own filesystem probes (app.py lines 53-65)
plus the orchestrator's oracle. -/
structure EndpointEnv where
  videoExists : Bool
  outDirNonempty : Bool
  outDirExists : Bool
  makedirsOk : Bool
  pipelineEnv : Env
  deriving Repr, DecidableEq

/-- `endpoint_procesar_video` (app.py lines 25-89).  `body = none` models a
request that is not JSON (`request.is_json` false, line 37); otherwise `body`
is the parsed JSON value.  Reading the two fields with `.get` on a non-dict
body raises before the `try` of line 68, so no handler response is produced
(`.uncaught`).  Field values that are truthy but not strings are outside the
scope of this model (CPython would fail type-dependently inside the
`os.path` calls of lines 53-58); they are mapped to `.uncaught` and no claim
depends on them.  After validation the orchestrator result is mapped to
200/500 (lines 68-85). -/
def endpoint_procesar_video (body : Option PyJson) (env : EndpointEnv)
    (fs0 : FS) : EndpointRun :=
  match body with
  | none =>
    { response := .http 400, invokedOrchestrator := false,
      createdOutputDir := false, fs := fs0 }
  | some data =>
    match pyGet data "ruta_video_entrada", pyGet data "ruta_json_salida" with
    | .error _, _ =>
      { response := .uncaught, invokedOrchestrator := false,
        createdOutputDir := false, fs := fs0 }
    | _, .error _ =>
      { response := .uncaught, invokedOrchestrator := false,
        createdOutputDir := false, fs := fs0 }
    | .ok ruta_video_entrada, .ok ruta_json_salida =>
      if !optTruthy ruta_video_entrada || !optTruthy ruta_json_salida then
        { response := .http 400, invokedOrchestrator := false,
          createdOutputDir := false, fs := fs0 }
      else
        match ruta_video_entrada, ruta_json_salida with
        | some (.str _), some (.str _) =>
          if !env.videoExists then
            { response := .http 404, invokedOrchestrator := false,
              createdOutputDir := false, fs := fs0 }
          else if env.outDirNonempty && !env.outDirExists then
            if env.makedirsOk then
              let r := procesar_video_a_json env.pipelineEnv fs0
              { response := .http (if r.2 then 200 else 500),
                invokedOrchestrator := true, createdOutputDir := true,
                fs := r.1 }
            else
              { response := .http 500, invokedOrchestrator := false,
                createdOutputDir := false, fs := fs0 }
          else
            let r := procesar_video_a_json env.pipelineEnv fs0
            { response := .http (if r.2 then 200 else 500),
              invokedOrchestrator := true, createdOutputDir := false,
              fs := r.1 }
        | _, _ =>
          { response := .uncaught, invokedOrchestrator := false,
            createdOutputDir := false, fs := fs0 }

/-- A request body with both path fields present as strings. -/
def mkBody (ruta_video ruta_json : String) : PyJson :=
  .obj [("ruta_video_entrada", .str ruta_video),
        ("ruta_json_salida", .str ruta_json)]

lemma ratFloor_eq_floor (q : ℚ) : ratFloor q = ⌊q⌋ :=
  Rat.floor_def.symm

lemma pyInt_intCast (n : ℤ) : pyInt (n : ℚ) = n := by
  simp [pyInt]

lemma pyInt_eq_floor (q : ℚ) (h : 0 ≤ q) : pyInt q = ⌊q⌋ := by
  rw [pyInt, Int.tdiv_eq_ediv (Rat.num_nonneg.mpr h) (Int.natCast_nonneg q.den)]
  exact Rat.floor_def.symm

lemma pyMod_sixty_nonneg (s : ℚ) : 0 ≤ pyMod s 60 := by
  unfold pyMod
  rw [ratFloor_eq_floor]
  have h1 : (⌊s / 60⌋ : ℚ) ≤ s / 60 := Int.floor_le _
  have h2 : (60 : ℚ) * (s / 60) = s := by field_simp
  nlinarith

lemma formatear_tiempo_floor (s : ℚ) :
    formatear_tiempo s = pad2 ⌊s / 60⌋ ++ ":" ++ pad2 ⌊pyMod s 60⌋ := by
  unfold formatear_tiempo pyFloorDiv
  rw [ratFloor_eq_floor, pyInt_intCast, pyInt_eq_floor _ (pyMod_sixty_nonneg s)]

lemma formatRecordsAux_length (i : ℕ) (l : List Segment) :
    (formatRecordsAux i l).length = l.length := by
  induction l generalizing i with
  | nil => rfl
  | cons s rest ih => simp [formatRecordsAux, ih]

lemma formatRecordsAux_map_id (i : ℕ) (l : List Segment) :
    (formatRecordsAux i l).map (fun p => p.id_parrafo) =
      List.range' (i + 1) l.length := by
  induction l generalizing i with
  | nil => rfl
  | cons s rest ih => simp [formatRecordsAux, segmentToParagraph, List.range', ih]

lemma formatRecordsAux_map_texto (i : ℕ) (l : List Segment) :
    (formatRecordsAux i l).map (fun p => p.parrafo_texto) =
      l.map (fun sg => sg.text.trim) := by
  induction l generalizing i with
  | nil => rfl
  | cons s rest ih => simp [formatRecordsAux, segmentToParagraph, ih]

lemma formatRecordsAux_map_inicio (i : ℕ) (l : List Segment) :
    (formatRecordsAux i l).map (fun p => p.tiempo_inicio_segundos) =
      l.map (fun sg => pyRound3 sg.start) := by
  induction l generalizing i with
  | nil => rfl
  | cons s rest ih => simp [formatRecordsAux, segmentToParagraph, ih]

lemma formatRecordsAux_map_fin (i : ℕ) (l : List Segment) :
    (formatRecordsAux i l).map (fun p => p.tiempo_fin_segundos) =
      l.map (fun sg => pyRound3 sg.«end») := by
  induction l generalizing i with
  | nil => rfl
  | cons s rest ih => simp [formatRecordsAux, segmentToParagraph, ih]

lemma procesar_extraction_fail (env : Env) (fs0 : FS)
    (he : env.extractionOk = false) :
    procesar_video_a_json env fs0 = (fs0, false) := by
  simp [procesar_video_a_json, he]

lemma procesar_transcription_fail (env : Env) (fs0 : FS)
    (he : env.extractionOk = true) (ht : env.transcription = none) :
    procesar_video_a_json env fs0 =
      ({ output := fs0.output, tempAudio := !env.removeOk }, false) := by
  unfold procesar_video_a_json
  rw [he, ht]
  cases hro : env.removeOk <;> simp

lemma procesar_empty (env : Env) (fs0 : FS)
    (he : env.extractionOk = true) (ht : env.transcription = some []) :
    procesar_video_a_json env fs0 =
      ((writeJson { output := fs0.output, tempAudio := !env.removeOk }
          placeholderDoc env.writeOutcome).1, true) := by
  unfold procesar_video_a_json
  rw [he, ht]
  cases hro : env.removeOk <;> simp

lemma procesar_nonempty (env : Env) (fs0 : FS) (segmentos : List Segment)
    (he : env.extractionOk = true) (ht : env.transcription = some segmentos)
    (hne : segmentos ≠ []) :
    procesar_video_a_json env fs0 =
      writeJson { output := fs0.output, tempAudio := !env.removeOk }
        (.records (formatRecords segmentos)) env.writeOutcome := by
  unfold procesar_video_a_json
  rw [he, ht]
  cases segmentos with
  | nil => exact absurd rfl hne
  | cons s rest => cases hro : env.removeOk <;> simp

lemma pyGet_mkBody_video (rv rj : String) :
    pyGet (mkBody rv rj) "ruta_video_entrada" = .ok (some (.str rv)) := rfl

lemma pyGet_mkBody_json (rv rj : String) :
    pyGet (mkBody rv rj) "ruta_json_salida" = .ok (some (.str rj)) := rfl

lemma endpoint_valid_body (env : EndpointEnv) (rv rj : String) (fs0 : FS)
    (hrv : rv ≠ "") (hrj : rj ≠ "") (hv : env.videoExists = true)
    (hd : env.outDirNonempty = false) :
    endpoint_procesar_video (some (mkBody rv rj)) env fs0 =
      { response :=
          .http (if (procesar_video_a_json env.pipelineEnv fs0).2 then 200 else 500),
        invokedOrchestrator := true, createdOutputDir := false,
        fs := (procesar_video_a_json env.pipelineEnv fs0).1 } := by
  unfold endpoint_procesar_video
  simp [pyGet_mkBody_video, pyGet_mkBody_json, optTruthy, pyTruthy, hrv, hrj, hv, hd]

lemma endpoint_missing_video (env : EndpointEnv) (rv rj : String) (fs0 : FS)
    (hrv : rv ≠ "") (hrj : rj ≠ "") (hv : env.videoExists = false) :
    endpoint_procesar_video (some (mkBody rv rj)) env fs0 =
      { response := .http 404, invokedOrchestrator := false,
        createdOutputDir := false, fs := fs0 } := by
  unfold endpoint_procesar_video
  simp [pyGet_mkBody_video, pyGet_mkBody_json, optTruthy, pyTruthy, hrv, hrj, hv]

lemma writeJson_tempAudio (fs : FS) (doc : JsonDoc) (w : WriteOutcome) :
    (writeJson fs doc w).1.tempAudio = fs.tempAudio := by
  cases w <;> rfl

/-- C1: in every orchestrator run whose transcription step returns a
non-empty list of N segments and whose final write succeeds, the run reports
success and the output file holds exactly the N paragraph records derived
from the segments: ids assigned sequentially 1..N, in the same order as the
input segments, each record carrying the segment's text trimmed of
surrounding whitespace. -/
theorem c1_pipeline_emits_sequential_paragraphs (env : Env) (fs0 : FS)
    (segmentos : List Segment)
    (he : env.extractionOk = true) (ht : env.transcription = some segmentos)
    (hne : segmentos ≠ []) (hw : env.writeOutcome = .ok) :
    (procesar_video_a_json env fs0).2 = true ∧
    (procesar_video_a_json env fs0).1.output =
      .written (.records (formatRecords segmentos)) ∧
    (formatRecords segmentos).length = segmentos.length ∧
    (formatRecords segmentos).map (fun p => p.id_parrafo) =
      List.range' 1 segmentos.length ∧
    (formatRecords segmentos).map (fun p => p.parrafo_texto) =
      segmentos.map (fun sg => sg.text.trim) := by
  rw [procesar_nonempty env fs0 segmentos he ht hne, hw]
  refine ⟨rfl, rfl, formatRecordsAux_length 0 segmentos, ?_,
    formatRecordsAux_map_texto 0 segmentos⟩
  simpa using formatRecordsAux_map_id 0 segmentos

/-- Witness for C1 at a concrete two-segment run. -/
theorem c1_witness :
    (procesar_video_a_json
        { extractionOk := true,
          transcription := some [{ start := 0, «end» := 1, text := " hola " },
                                 { start := 1, «end» := 2, text := "mundo" }],
          removeOk := true, writeOutcome := .ok }
        { output := .absent, tempAudio := false }).2 = true ∧
    (procesar_video_a_json
        { extractionOk := true,
          transcription := some [{ start := 0, «end» := 1, text := " hola " },
                                 { start := 1, «end» := 2, text := "mundo" }],
          removeOk := true, writeOutcome := .ok }
        { output := .absent, tempAudio := false }).1.output =
      .written (.records (formatRecords
        [{ start := 0, «end» := 1, text := " hola " },
         { start := 1, «end» := 2, text := "mundo" }])) ∧
    (formatRecords [{ start := 0, «end» := 1, text := " hola " },
                    { start := 1, «end» := 2, text := "mundo" }]).length =
      ([{ start := 0, «end» := 1, text := " hola " },
        { start := 1, «end» := 2, text := "mundo" }] : List Segment).length ∧
    (formatRecords [{ start := 0, «end» := 1, text := " hola " },
                    { start := 1, «end» := 2, text := "mundo" }]).map
        (fun p => p.id_parrafo) =
      List.range' 1 ([{ start := 0, «end» := 1, text := " hola " },
                      { start := 1, «end» := 2, text := "mundo" }] : List Segment).length ∧
    (formatRecords [{ start := 0, «end» := 1, text := " hola " },
                    { start := 1, «end» := 2, text := "mundo" }]).map
        (fun p => p.parrafo_texto) =
      ([{ start := 0, «end» := 1, text := " hola " },
        { start := 1, «end» := 2, text := "mundo" }] : List Segment).map
        (fun sg => sg.text.trim) :=
  c1_pipeline_emits_sequential_paragraphs _ _ _ rfl rfl
    (List.cons_ne_nil _ _) rfl

/-- C7: `formatear_tiempo` maps a second count to minutes:seconds with
minutes unbounded and seconds zero-padded to two digits: 0 to "00:00",
59 to "00:59", 60 to "01:00", and 3661 to "61:01". -/
theorem c7_formatear_tiempo_values :
    formatear_tiempo 0 = "00:00" ∧ formatear_tiempo 59 = "00:59" ∧
    formatear_tiempo 60 = "01:00" ∧ formatear_tiempo 3661 = "61:01" :=
  ⟨by norm_num [formatear_tiempo, pyInt, pyFloorDiv, pyMod, ratFloor, pad2]; decide,
   by norm_num [formatear_tiempo, pyInt, pyFloorDiv, pyMod, ratFloor, pad2]; decide,
   by norm_num [formatear_tiempo, pyInt, pyFloorDiv, pyMod, ratFloor, pad2]; decide,
   by norm_num [formatear_tiempo, pyInt, pyFloorDiv, pyMod, ratFloor, pad2]; decide⟩

/-- C8: in every successful non-empty run the persisted
`tiempo_inicio_segundos`/`tiempo_fin_segundos` fields are the segment times
rounded to 3 decimal places, in order; in particular a segment time of
1.23456 is persisted as 1.235. -/
theorem c8_rounding_three_decimals (env : Env) (fs0 : FS)
    (segmentos : List Segment)
    (he : env.extractionOk = true) (ht : env.transcription = some segmentos)
    (hne : segmentos ≠ []) (hw : env.writeOutcome = .ok) :
    (procesar_video_a_json env fs0).1.output =
      .written (.records (formatRecords segmentos)) ∧
    (formatRecords segmentos).map (fun p => p.tiempo_inicio_segundos) =
      segmentos.map (fun sg => pyRound3 sg.start) ∧
    (formatRecords segmentos).map (fun p => p.tiempo_fin_segundos) =
      segmentos.map (fun sg => pyRound3 sg.«end») ∧
    pyRound3 (1.23456 : ℚ) = (1.235 : ℚ) := by
  rw [procesar_nonempty env fs0 segmentos he ht hne, hw]
  exact ⟨rfl, formatRecordsAux_map_inicio 0 segmentos,
    formatRecordsAux_map_fin 0 segmentos,
    by norm_num [pyRound3, roundHalfEven, ratFloor]⟩

/-- Witness for C8 at a concrete run with segment times 1.23456 and 2. -/
theorem c8_witness :
    (procesar_video_a_json
        { extractionOk := true,
          transcription := some [{ start := (1.23456 : ℚ), «end» := 2, text := "t" }],
          removeOk := true, writeOutcome := .ok }
        { output := .absent, tempAudio := false }).1.output =
      .written (.records (formatRecords
        [{ start := (1.23456 : ℚ), «end» := 2, text := "t" }])) ∧
    (formatRecords [{ start := (1.23456 : ℚ), «end» := 2, text := "t" }]).map
        (fun p => p.tiempo_inicio_segundos) =
      ([{ start := (1.23456 : ℚ), «end» := 2, text := "t" }] : List Segment).map
        (fun sg => pyRound3 sg.start) ∧
    (formatRecords [{ start := (1.23456 : ℚ), «end» := 2, text := "t" }]).map
        (fun p => p.tiempo_fin_segundos) =
      ([{ start := (1.23456 : ℚ), «end» := 2, text := "t" }] : List Segment).map
        (fun sg => pyRound3 sg.«end») ∧
    pyRound3 (1.23456 : ℚ) = (1.235 : ℚ) :=
  c8_rounding_three_decimals _ _ _ rfl rfl (List.cons_ne_nil _ _) rfl

/-- C10: for nonneg input the formatter truncates rather than rounds
(minutes are `⌊s / 60⌋`, seconds the integer part of `s mod 60`), 59.9
formats as "00:59", and a paragraph record's MM:SS field can disagree with
its 3-decimal rounded seconds field: at segment time 59.9996 the record
shows "00:59" next to a rounded seconds value of 60. -/
theorem c10_formatter_truncates :
    (∀ s : ℚ, 0 ≤ s →
      formatear_tiempo s = pad2 ⌊s / 60⌋ ++ ":" ++ pad2 ⌊pyMod s 60⌋) ∧
    formatear_tiempo (59.9 : ℚ) = "00:59" ∧
    (segmentToParagraph 0
        { start := (59.9996 : ℚ), «end» := 60, text := "" }).tiempo_inicio_formato_MMSS =
      "00:59" ∧
    (segmentToParagraph 0
        { start := (59.9996 : ℚ), «end» := 60, text := "" }).tiempo_inicio_segundos =
      (60 : ℚ) := by
  refine ⟨fun s _ => formatear_tiempo_floor s, ?_, ?_, ?_⟩
  · norm_num [formatear_tiempo, pyInt, pyFloorDiv, pyMod, ratFloor, pad2]
    decide
  · show formatear_tiempo (59.9996 : ℚ) = "00:59"
    norm_num [formatear_tiempo, pyInt, pyFloorDiv, pyMod, ratFloor, pad2]
    decide
  · show pyRound3 (59.9996 : ℚ) = (60 : ℚ)
    norm_num [pyRound3, roundHalfEven, ratFloor]

/-- Witness for C10's universally quantified part at s = 120. -/
theorem c10_witness :
    formatear_tiempo (120 : ℚ) =
      pad2 ⌊(120 : ℚ) / 60⌋ ++ ":" ++ pad2 ⌊pyMod (120 : ℚ) 60⌋ :=
  c10_formatter_truncates.1 120 (by norm_num)

/-- C2 counterexample: with zero segments and a placeholder write that fails
at `open`, the orchestrator still reports success and the endpoint answers
200 — refuting that an output-write failure yields failure/500 on the
zero-segment path. -/
theorem c2_counterexample :
    (procesar_video_a_json
        { extractionOk := true, transcription := some [], removeOk := true,
          writeOutcome := .openFail }
        { output := .absent, tempAudio := false }).2 = true ∧
    (endpoint_procesar_video (some (mkBody "v.mp4" "o.json"))
        { videoExists := true, outDirNonempty := false, outDirExists := true,
          makedirsOk := true,
          pipelineEnv := { extractionOk := true, transcription := some [],
                           removeOk := true, writeOutcome := .openFail } }
        { output := .absent, tempAudio := false }).response = .http 200 :=
  ⟨rfl, rfl⟩

/-- C2 (amended): a failed output write makes the orchestrator report
failure and the endpoint answer 500 on the non-empty-segments path; on the
zero-segment placeholder path the write error is caught, the orchestrator
still reports success and the endpoint answers 200. -/
theorem c2_amended_write_failure_status (env : EndpointEnv) (rv rj : String)
    (fs0 : FS) (segmentos : List Segment)
    (hrv : rv ≠ "") (hrj : rj ≠ "") (hv : env.videoExists = true)
    (hd : env.outDirNonempty = false)
    (he : env.pipelineEnv.extractionOk = true)
    (hw : env.pipelineEnv.writeOutcome ≠ .ok) :
    (env.pipelineEnv.transcription = some segmentos → segmentos ≠ [] →
      (procesar_video_a_json env.pipelineEnv fs0).2 = false ∧
      (endpoint_procesar_video (some (mkBody rv rj)) env fs0).response =
        .http 500) ∧
    (env.pipelineEnv.transcription = some [] →
      (procesar_video_a_json env.pipelineEnv fs0).2 = true ∧
      (endpoint_procesar_video (some (mkBody rv rj)) env fs0).response =
        .http 200) := by
  rw [endpoint_valid_body env rv rj fs0 hrv hrj hv hd]
  constructor
  · intro ht hne
    rw [procesar_nonempty env.pipelineEnv fs0 segmentos he ht hne]
    cases hwo : env.pipelineEnv.writeOutcome with
    | ok => exact absurd hwo hw
    | openFail => exact ⟨rfl, rfl⟩
    | dumpFail => exact ⟨rfl, rfl⟩
  · intro ht
    rw [procesar_empty env.pipelineEnv fs0 he ht]
    exact ⟨rfl, rfl⟩

/-- Witness for C2 (amended), zero-segment branch, at a concrete run whose
placeholder write fails during `json.dump`. -/
theorem c2_witness :
    (procesar_video_a_json
        { extractionOk := true, transcription := some [], removeOk := true,
          writeOutcome := .dumpFail }
        { output := .written (.records []), tempAudio := false }).2 = true ∧
    (endpoint_procesar_video (some (mkBody "in.mp4" "out.json"))
        { videoExists := true, outDirNonempty := false, outDirExists := true,
          makedirsOk := true,
          pipelineEnv := { extractionOk := true, transcription := some [],
                           removeOk := true, writeOutcome := .dumpFail } }
        { output := .written (.records []), tempAudio := false }).response =
      .http 200 :=
  (c2_amended_write_failure_status
    { videoExists := true, outDirNonempty := false, outDirExists := true,
      makedirsOk := true,
      pipelineEnv := { extractionOk := true, transcription := some [],
                       removeOk := true, writeOutcome := .dumpFail } }
    "in.mp4" "out.json"
    { output := .written (.records []), tempAudio := false } []
    (by decide) (by decide) rfl rfl rfl (by decide)).2 rfl

/-- C3 counterexample: on the non-empty path a write that fails during
`json.dump` reports failure yet leaves a truncated output file where none
existed before — the output path is modified on a failure outcome. -/
theorem c3_counterexample :
    (procesar_video_a_json
        { extractionOk := true,
          transcription := some [{ start := 0, «end» := 1, text := "hola" }],
          removeOk := true, writeOutcome := .dumpFail }
        { output := .absent, tempAudio := false }).2 = false ∧
    (procesar_video_a_json
        { extractionOk := true,
          transcription := some [{ start := 0, «end» := 1, text := "hola" }],
          removeOk := true, writeOutcome := .dumpFail }
        { output := .absent, tempAudio := false }).1.output ≠ .absent :=
  ⟨rfl, by decide⟩

/-- C3 (amended): whenever the orchestrator reports failure, the output file
is left exactly as it was — except when the write itself fails after the
output file was already opened for writing, in which case a truncated
document is left at the output path. -/
theorem c3_amended_no_output_on_failure (env : Env) (fs0 : FS)
    (hf : (procesar_video_a_json env fs0).2 = false) :
    (procesar_video_a_json env fs0).1.output = fs0.output ∨
    ((procesar_video_a_json env fs0).1.output = .truncated ∧
      env.writeOutcome = .dumpFail) := by
  obtain ⟨eo, tr, ro, wo⟩ := env
  cases eo with
  | false =>
    rw [procesar_extraction_fail _ _ rfl]
    exact Or.inl rfl
  | true =>
    cases tr with
    | none =>
      rw [procesar_transcription_fail _ fs0 rfl rfl]
      exact Or.inl rfl
    | some segmentos =>
      cases segmentos with
      | nil =>
        rw [procesar_empty _ fs0 rfl rfl] at hf
        simp at hf
      | cons s rest =>
        rw [procesar_nonempty _ fs0 (s :: rest) rfl rfl
          (List.cons_ne_nil s rest)] at hf ⊢
        cases wo with
        | ok => simp [writeJson] at hf
        | openFail => exact Or.inl rfl
        | dumpFail => exact Or.inr ⟨rfl, rfl⟩

/-- Witness for C3 (amended) at a concrete failing run (extraction fails). -/
theorem c3_witness :
    (procesar_video_a_json
        { extractionOk := false, transcription := none, removeOk := true,
          writeOutcome := .ok }
        { output := .written (.records []), tempAudio := false }).1.output =
      (FS.mk (.written (.records [])) false).output ∨
    ((procesar_video_a_json
        { extractionOk := false, transcription := none, removeOk := true,
          writeOutcome := .ok }
        { output := .written (.records []), tempAudio := false }).1.output =
      .truncated ∧
      (Env.mk false none true .ok).writeOutcome = .dumpFail) :=
  c3_amended_no_output_on_failure
    { extractionOk := false, transcription := none, removeOk := true,
      writeOutcome := .ok }
    { output := .written (.records []), tempAudio := false } rfl

/-- C4 counterexample: with zero segments and a placeholder write failing
during `json.dump`, the orchestrator reports success and the endpoint
answers 200, yet the output file does not hold the placeholder document —
refuting the unconditional "the output file is written" part of the claim. -/
theorem c4_counterexample :
    (procesar_video_a_json
        { extractionOk := true, transcription := some [], removeOk := true,
          writeOutcome := .dumpFail }
        { output := .absent, tempAudio := false }).2 = true ∧
    (endpoint_procesar_video (some (mkBody "clip.mp4" "doc.json"))
        { videoExists := true, outDirNonempty := false, outDirExists := true,
          makedirsOk := true,
          pipelineEnv := { extractionOk := true, transcription := some [],
                           removeOk := true, writeOutcome := .dumpFail } }
        { output := .absent, tempAudio := false }).response = .http 200 ∧
    (procesar_video_a_json
        { extractionOk := true, transcription := some [], removeOk := true,
          writeOutcome := .dumpFail }
        { output := .absent, tempAudio := false }).1.output ≠
      .written placeholderDoc :=
  ⟨rfl, rfl, by decide⟩

/-- C4 (amended): in every run with extraction success and an empty segment
list the orchestrator reports success and the endpoint answers 200, and
whenever the placeholder write succeeds the output file equals the fixed
placeholder document. -/
theorem c4_amended_empty_segments_placeholder (env : EndpointEnv)
    (rv rj : String) (fs0 : FS)
    (hrv : rv ≠ "") (hrj : rj ≠ "") (hv : env.videoExists = true)
    (hd : env.outDirNonempty = false)
    (he : env.pipelineEnv.extractionOk = true)
    (ht : env.pipelineEnv.transcription = some []) :
    (procesar_video_a_json env.pipelineEnv fs0).2 = true ∧
    (endpoint_procesar_video (some (mkBody rv rj)) env fs0).response =
      .http 200 ∧
    (env.pipelineEnv.writeOutcome = .ok →
      (procesar_video_a_json env.pipelineEnv fs0).1.output =
        .written placeholderDoc) := by
  rw [endpoint_valid_body env rv rj fs0 hrv hrj hv hd,
      procesar_empty env.pipelineEnv fs0 he ht]
  refine ⟨rfl, rfl, fun hw => ?_⟩
  rw [hw]
  rfl

/-- Witness for C4 (amended) at a concrete zero-segment run with a
successful write. -/
theorem c4_witness :
    (procesar_video_a_json
        { extractionOk := true, transcription := some [], removeOk := true,
          writeOutcome := .ok }
        { output := .absent, tempAudio := false }).2 = true ∧
    (endpoint_procesar_video (some (mkBody "a.mp4" "b.json"))
        { videoExists := true, outDirNonempty := false, outDirExists := true,
          makedirsOk := true,
          pipelineEnv := { extractionOk := true, transcription := some [],
                           removeOk := true, writeOutcome := .ok } }
        { output := .absent, tempAudio := false }).response = .http 200 ∧
    ((Env.mk true (some []) true .ok).writeOutcome = .ok →
      (procesar_video_a_json
          { extractionOk := true, transcription := some [], removeOk := true,
            writeOutcome := .ok }
          { output := .absent, tempAudio := false }).1.output =
        .written placeholderDoc) :=
  c4_amended_empty_segments_placeholder
    { videoExists := true, outDirNonempty := false, outDirExists := true,
      makedirsOk := true,
      pipelineEnv := { extractionOk := true, transcription := some [],
                       removeOk := true, writeOutcome := .ok } }
    "a.mp4" "b.json" { output := .absent, tempAudio := false }
    (by decide) (by decide) rfl rfl rfl rfl

/-- C5 counterexample: when `os.remove` on the temp audio file raises an
`OSError`, the file is still on disk after the invocation completes even
though extraction succeeded — deletion is attempted but not guaranteed. -/
theorem c5_counterexample :
    (procesar_video_a_json
        { extractionOk := true, transcription := some [], removeOk := false,
          writeOutcome := .ok }
        { output := .absent, tempAudio := false }).1.tempAudio = true :=
  rfl

/-- C5 (amended): after any invocation in which extraction succeeds,
deletion of the temp audio file is attempted unconditionally once
transcription returns (before the failure/success outcome is decided), so
the file is absent whenever the removal call succeeds — for every
transcription outcome (segments, empty list, or failure signal); if the
removal raises an `OSError` the file remains and only a warning is logged. -/
theorem c5_amended_temp_audio_removed (env : Env) (fs0 : FS)
    (he : env.extractionOk = true) (hr : env.removeOk = true) :
    (procesar_video_a_json env fs0).1.tempAudio = false := by
  obtain ⟨eo, tr, ro, wo⟩ := env
  cases tr with
  | none =>
    rw [procesar_transcription_fail _ fs0 he rfl]
    rw [hr]
    rfl
  | some segmentos =>
    cases segmentos with
    | nil =>
      rw [procesar_empty _ fs0 he rfl]
      rw [writeJson_tempAudio, hr]
      rfl
    | cons s rest =>
      rw [procesar_nonempty _ fs0 (s :: rest) he rfl (List.cons_ne_nil s rest)]
      rw [writeJson_tempAudio, hr]
      rfl

/-- Witness for C5 (amended) at a concrete run with a failing transcription
and a successful removal. -/
theorem c5_witness :
    (procesar_video_a_json
        { extractionOk := true, transcription := none, removeOk := true,
          writeOutcome := .ok }
        { output := .absent, tempAudio := false }).1.tempAudio = false :=
  c5_amended_temp_audio_removed
    { extractionOk := true, transcription := none, removeOk := true,
      writeOutcome := .ok }
    { output := .absent, tempAudio := false } rfl rfl

/-- C6: for every request whose body carries non-empty string paths but
whose input video path does not exist, the endpoint answers 404, the
orchestrator is never invoked, the output directory is not created, and the
filesystem (in particular the output path) is untouched. -/
theorem c6_missing_video_404 (env : EndpointEnv) (rv rj : String) (fs0 : FS)
    (hrv : rv ≠ "") (hrj : rj ≠ "") (hv : env.videoExists = false) :
    endpoint_procesar_video (some (mkBody rv rj)) env fs0 =
      { response := .http 404, invokedOrchestrator := false,
        createdOutputDir := false, fs := fs0 } :=
  endpoint_missing_video env rv rj fs0 hrv hrj hv

/-- Witness for C6 at a concrete request for a missing video. -/
theorem c6_witness :
    endpoint_procesar_video (some (mkBody "missing.mp4" "out.json"))
        { videoExists := false, outDirNonempty := true, outDirExists := false,
          makedirsOk := true,
          pipelineEnv := { extractionOk := true, transcription := some [],
                           removeOk := true, writeOutcome := .ok } }
        { output := .written (.records []), tempAudio := false } =
      { response := .http 404, invokedOrchestrator := false,
        createdOutputDir := false,
        fs := { output := .written (.records []), tempAudio := false } } :=
  c6_missing_video_404
    { videoExists := false, outDirNonempty := true, outDirExists := false,
      makedirsOk := true,
      pipelineEnv := { extractionOk := true, transcription := some [],
                       removeOk := true, writeOutcome := .ok } }
    "missing.mp4" "out.json"
    { output := .written (.records []), tempAudio := false }
    (by decide) (by decide) rfl

/-- C9: for every request whose body is well-formed JSON but not a JSON
object, reading the fields with `.get` raises an uncaught exception before
the handler's try block, so no handler response — in particular not the
documented 400 error body — is produced, the orchestrator is not invoked and
the filesystem is untouched. -/
theorem c9_non_object_body_uncaught (data : PyJson) (env : EndpointEnv)
    (fs0 : FS) (hobj : data.isObj = false) :
    endpoint_procesar_video (some data) env fs0 =
      { response := .uncaught, invokedOrchestrator := false,
        createdOutputDir := false, fs := fs0 } ∧
    (endpoint_procesar_video (some data) env fs0).response ≠ .http 400 := by
  have h : endpoint_procesar_video (some data) env fs0 =
      { response := .uncaught, invokedOrchestrator := false,
        createdOutputDir := false, fs := fs0 } := by
    cases data with
    | obj fields => simp [PyJson.isObj] at hobj
    | arr elems => rfl
    | str s => rfl
    | num q => rfl
    | boolean b => rfl
    | null => rfl
  refine ⟨h, ?_⟩
  rw [h]
  simp

/-- Witness for C9 at a top-level-array request body. -/
theorem c9_witness :
    endpoint_procesar_video (some (.arr [.str "x"]))
        { videoExists := true, outDirNonempty := false, outDirExists := true,
          makedirsOk := true,
          pipelineEnv := { extractionOk := true, transcription := some [],
                           removeOk := true, writeOutcome := .ok } }
        { output := .absent, tempAudio := false } =
      { response := .uncaught, invokedOrchestrator := false,
        createdOutputDir := false,
        fs := { output := .absent, tempAudio := false } } ∧
    (endpoint_procesar_video (some (.arr [.str "x"]))
        { videoExists := true, outDirNonempty := false, outDirExists := true,
          makedirsOk := true,
          pipelineEnv := { extractionOk := true, transcription := some [],
                           removeOk := true, writeOutcome := .ok } }
        { output := .absent, tempAudio := false }).response ≠ .http 400 :=
  c9_non_object_body_uncaught (.arr [.str "x"])
    { videoExists := true, outDirNonempty := false, outDirExists := true,
      makedirsOk := true,
      pipelineEnv := { extractionOk := true, transcription := some [],
                       removeOk := true, writeOutcome := .ok } }
    { output := .absent, tempAudio := false } rfl
